import Mathlib

/-!
Shallow embedding of `src/Rheology_Parameters_Streamlit_app.py`.

The app collects eight numeric mix-design inputs, validates them
(blocking binder-sum check, advisory range check), gates prediction on
three loaded models, runs a two-iteration prediction loop with
per-iteration exception handling, and renders a table and two charts.

Numeric values are modelled as exact rationals (`ℚ`); the Python code
compares with exact equality (`binder_sum != 100`), which is the
behaviour under verification here.  A model artifact is modelled as a
`PyModel`: a Python object with a truthiness flag and a fallible
`predict` function (`Except` models a raised exception).  The Streamlit
calls `st.error` / `st.success` / `st.warning` / table and chart
rendering are modelled as an ordered list of `OutputEvent`s, and
`st.stop` as early return.  `runApp` additionally records every feature
vector passed to a model (`invocations`) and the mix state it leaves
behind (`finalMix`), so that "no model is invoked" and "no mutation"
claims are statable.
-/

namespace Rheology

/-- The eight scalar mix-design inputs captured by the form
(lines 113-133 of the source). -/
structure MixDesign where
  opc : ℚ
  cc : ℚ
  lp : ℚ
  nc : ℚ
  gyp : ℚ
  sb : ℚ
  wb : ℚ
  sp : ℚ
deriving DecidableEq, Repr

/-- Line 140: `binder_sum = opc + cc + lp + gyp`. -/
def binder_sum (m : MixDesign) : ℚ :=
  m.opc + m.cc + m.lp + m.gyp

/-- The binder-sum check of line 141 (`binder_sum != 100` halts):
the check passes exactly when the sum equals 100. -/
def checkBinderSum (m : MixDesign) : Bool :=
  binder_sum m == 100

/-- Lines 147-156: the `ranges` dictionary, as a list of
(field name, lower bound, upper bound, value) entries in source order. -/
def ranges (m : MixDesign) : List (String × ℚ × ℚ × ℚ) :=
  [("OPC (%)", 40, 100, m.opc),
   ("CC (%)", 0, 43, m.cc),
   ("LP (%)", 0, 23, m.lp),
   ("NC (%)", 0, 5, m.nc),
   ("GYP (%)", 0, 3, m.gyp),
   ("S/B", 0.5, 2.5, m.sb),
   ("W/B", 0.4, 0.55, m.wb),
   ("SP (%)", 0.5, 2.5, m.sp)]

/-- The membership test of line 159: `low <= val <= high`. -/
def inRangeB (low high val : ℚ) : Bool :=
  decide (low ≤ val ∧ val ≤ high)

/-- Lines 157-160: the entries of `ranges` whose value fails
`low <= val <= high`. -/
def out_of_range_entries (m : MixDesign) : List (String × ℚ × ℚ × ℚ) :=
  (ranges m).filter (fun e => ! inRangeB e.2.1 e.2.2.1 e.2.2.2)

/-- Line 160: the formatted violation string
`f"\x7bparam\x7d = \x7bval\x7d (allowed: \x7blow\x7d-\x7bhigh\x7d)"`. -/
def fmtViolation (e : String × ℚ × ℚ × ℚ) : String :=
  e.1 ++ " = " ++ toString e.2.2.2 ++ " (allowed: " ++ toString e.2.1 ++
    "–" ++ toString e.2.2.1 ++ ")"

/-- Lines 157-160: the `out_of_range` list of formatted violation
messages. -/
def out_of_range (m : MixDesign) : List String :=
  (out_of_range_entries m).map fmtViolation

/-- A deserialized Python model object: its truthiness (used by the
`if model_SYS and model_DYS and model_PV` gate on line 172) and its
`predict` method, which may raise (modelled by `Except`).  `predict`
takes the 9-element feature row and returns the scalar prediction
(the `[0]` indexing of lines 183-185). -/
structure PyModel where
  truthy : Bool
  predict : List ℚ → Except String ℚ

/-- Python truthiness of a model slot: `None` is falsy, an object has
its own truth value. -/
def pyTruthy : Option PyModel → Bool
  | none => false
  | some mdl => mdl.truthy

/-- The prediction gate of line 172:
`model_SYS and model_DYS and model_PV`. -/
def modelsGate (mS mD mP : Option PyModel) : Bool :=
  pyTruthy mS && pyTruthy mD && pyTruthy mP

/-- An on-page output produced by the app: error, success and warning
messages, the rendered result table, and a rendered chart. -/
inductive OutputEvent where
  | errorMsg (s : String)
  | successMsg (s : String)
  | warningMsg (s : String)
  | table (rows : List (String × ℚ × ℚ × ℚ))
  | chart (name : String) (rows : List (String × ℚ × ℚ × ℚ))
deriving DecidableEq, Repr

/-- Whether an on-page output is an error message (`st.error`). -/
def isErrorEvent : OutputEvent → Bool
  | .errorMsg _ => true
  | _ => false

/-- Line 14: the message of a model-load failure. -/
def loadErrMsg (path e : String) : String :=
  "Could not load model at " ++ path ++ ": " ++ e

/-- Lines 10-15: `load_model` attempts a load (the outcome of
`joblib.load` is the argument `r`); on failure it surfaces an error
message and yields `None`; it never re-raises. -/
def load_model (r : Except String PyModel) (path : String) :
    Option PyModel × List OutputEvent :=
  match r with
  | .ok mdl => (some mdl, [])
  | .error e => (none, [.errorMsg (loadErrMsg path e)])

/-- Lines 17-19: the three independent load attempts, in source order,
returning the three model slots and the error events emitted. -/
def loadModels (rS rD rP : Except String PyModel) :
    (Option PyModel × Option PyModel × Option PyModel) × List OutputEvent :=
  let s := load_model rS "GUI_SYS.joblib"
  let d := load_model rD "GUI_DYS.joblib"
  let p := load_model rP "GUI_PV.joblib"
  ((s.1, d.1, p.1), s.2 ++ d.2 ++ p.2)

/-- Line 179: the 9-element feature vector
`[opc, cc, lp, nc, gyp, sb, wb, sp, time_val]`. -/
def input_values (m : MixDesign) (time_val : ℚ) : List ℚ :=
  [m.opc, m.cc, m.lp, m.nc, m.gyp, m.sb, m.wb, m.sp, time_val]

/-- Lines 175-176: the feature names, fixed order. -/
def feature_names : List String :=
  ["OPC (%)", "CC (%)", "LP (%)", "NC (%)", "GYP (%)",
   "S/B", "W/B", "SP (%)", "Time"]

/-- One result row of line 186: `[label, sys_pred, dys_pred, pv_pred]`. -/
structure PredictionRow where
  label : String
  sys : ℚ
  dys : ℚ
  pv : ℚ
deriving DecidableEq, Repr

/-- Line 188: the message of a per-time-point prediction failure. -/
def predFailMsg (label e : String) : String :=
  "Prediction failed for time=" ++ label ++ ": " ++ e

/-- Lines 182-186: the body of one iteration of the time loop.
`model_SYS.predict` is called first; on an exception the later calls
do not happen (short-circuit of a raised exception).  Returns the
outcome (a row, or the exception's message) together with the list of
(model name, feature vector) invocations that occurred. -/
def predictOne (a b c : PyModel) (m : MixDesign) (time_val : ℚ)
    (label : String) :
    Except String PredictionRow × List (String × List ℚ) :=
  let iv := input_values m time_val
  match a.predict iv with
  | .error e => (.error e, [("SYS", iv)])
  | .ok s =>
    match b.predict iv with
    | .error e => (.error e, [("SYS", iv), ("DYS", iv)])
    | .ok d =>
      match c.predict iv with
      | .error e => (.error e, [("SYS", iv), ("DYS", iv), ("PV", iv)])
      | .ok p => (.ok ⟨label, s, d, p⟩, [("SYS", iv), ("DYS", iv), ("PV", iv)])

/-- Line 178: `zip([0, 1], ["10 min", "30 min"])`. -/
def timePoints : List (ℚ × String) :=
  [(0, "10 min"), (1, "30 min")]

/-- Lines 174-188: the prediction loop.  Accumulates, in order:
the successful rows (`results`), the error messages surfaced by the
`except` branches, and every model invocation made. -/
def predictLoop (a b c : PyModel) (m : MixDesign) :
    List PredictionRow × List String × List (String × List ℚ) :=
  timePoints.foldl
    (fun acc tp =>
      let r := predictOne a b c m tp.1 tp.2
      match r.1 with
      | .ok row => (acc.1 ++ [row], acc.2.1, acc.2.2 ++ r.2)
      | .error e => (acc.1, acc.2.1 ++ [predFailMsg tp.2 e], acc.2.2 ++ r.2))
    ([], [], [])

/-- Line 142: the binder-failure message (the source formats the sum to
two decimals; the numeric rendering is presentation). -/
def binderFailMsg (m : MixDesign) : String :=
  "❌ Binder content must equal 100%. Current sum = " ++
    toString (binder_sum m) ++ "%"

/-- Line 145. -/
def binderPassMsg : String :=
  "✅ Binder content check passed (sum = 100%)."

/-- Line 163. -/
def rangeWarnMsg (m : MixDesign) : String :=
  "⚠️ Some parameters are outside the recommended ranges:\n" ++
    String.intercalate "\n" (out_of_range m)

/-- Line 165. -/
def rangePassMsg : String :=
  "✅ All inputs are within recommended ranges."

/-- Line 265. -/
def modelsLoadErrMsg : String :=
  "Models could not be loaded. Please check the .joblib files."

/-- Lines 144-165: the events of the validation step when the
binder-sum check has passed: the success message, then either the range
warning or the all-in-range success message. -/
def validationEvents (m : MixDesign) : List OutputEvent :=
  [OutputEvent.successMsg binderPassMsg] ++
    (if out_of_range m ≠ [] then [OutputEvent.warningMsg (rangeWarnMsg m)]
     else [OutputEvent.successMsg rangePassMsg])

/-- A row as placed in the rendered table (line 191 column order:
Time, SYS, DYS, PV). -/
def rowTuple (r : PredictionRow) : String × ℚ × ℚ × ℚ :=
  (r.label, r.sys, r.dys, r.pv)

/-- The observable outcome of one pass of the app, from the validation
step (line 140) to the end: the ordered on-page outputs, the result
rows, every feature vector passed to a model, whether the predict
action was offered (gate of line 172 reached and true), whether
`st.stop` halted the pass, and the mix state after the pass (the
source never reassigns the eight inputs). -/
structure RunResult where
  events : List OutputEvent
  rows : List PredictionRow
  invocations : List (String × List ℚ)
  offered : Bool
  halted : Bool
  finalMix : MixDesign
deriving DecidableEq, Repr

/-- Lines 140-265: one pass of the app below the input widgets.
`pressed` is whether the predict button of line 173 was clicked. -/
def runApp (mS mD mP : Option PyModel) (m : MixDesign) (pressed : Bool) :
    RunResult :=
  if binder_sum m ≠ 100 then
    { events := [.errorMsg (binderFailMsg m)], rows := [], invocations := [],
      offered := false, halted := true, finalMix := m }
  else
    match mS, mD, mP with
    | some a, some b, some c =>
      if a.truthy && b.truthy && c.truthy then
        if pressed then
          let r := predictLoop a b c m
          let predEvents :=
            r.2.1.map OutputEvent.errorMsg ++
              (if r.1 ≠ [] then
                 [OutputEvent.table (r.1.map rowTuple),
                  OutputEvent.chart "Yield Stress vs Time" (r.1.map rowTuple),
                  OutputEvent.chart "Plastic Viscosity vs Time" (r.1.map rowTuple)]
               else [])
          { events := validationEvents m ++ predEvents, rows := r.1,
            invocations := r.2.2, offered := true, halted := false,
            finalMix := m }
        else
          { events := validationEvents m, rows := [], invocations := [],
            offered := true, halted := false, finalMix := m }
      else
        { events := validationEvents m ++ [.errorMsg modelsLoadErrMsg],
          rows := [], invocations := [], offered := false, halted := false,
          finalMix := m }
    | _, _, _ =>
      { events := validationEvents m ++ [.errorMsg modelsLoadErrMsg],
        rows := [], invocations := [], offered := false, halted := false,
        finalMix := m }

/-- Fixture: a model that always succeeds, answering the sum of its
features. -/
def okModel : PyModel :=
  ⟨true, fun iv => .ok iv.sum⟩

/-- Fixture: a model that raises exactly when the time indicator (the
last feature) is 0. -/
def failAt0Model : PyModel :=
  ⟨true, fun iv => if iv.getLast? = some 0 then .error "boom" else .ok 1⟩

/-- Fixture: a model that always raises. -/
def failModel : PyModel :=
  ⟨true, fun _ => .error "boom"⟩

/-- Fixture: an object that deserializes but is falsy. -/
def falsyModel : PyModel :=
  ⟨false, fun iv => .ok iv.length⟩

/-- Fixture: the spec's concrete mix, binder sum exactly 100. -/
def mixGood : MixDesign :=
  ⟨50, 28, 10, 2, 12, 1, 0.45, 1⟩

/-- Fixture: a mix with binder sum 99.9. -/
def mixBad : MixDesign :=
  ⟨50, 20, 10, 2, 19.9, 1, 0.45, 1⟩

/-- Fixture: a mix with binder sum 100 but the nanoclay dosage out of
its recommended range. -/
def mixOutOfRange : MixDesign :=
  ⟨50, 28, 10, 7, 12, 1, 0.45, 1⟩

section Helpers

/-- The prediction loop when both iterations succeed. -/
lemma predictLoop_ok_ok (a b c : PyModel) (m : MixDesign)
    (x y : PredictionRow)
    (h0 : (predictOne a b c m 0 "10 min").1 = .ok x)
    (h1 : (predictOne a b c m 1 "30 min").1 = .ok y) :
    predictLoop a b c m =
      ([x, y], [],
       (predictOne a b c m 0 "10 min").2 ++ (predictOne a b c m 1 "30 min").2) := by
  simp [predictLoop, timePoints, h0, h1]

/-- The prediction loop when the first iteration raises and the second
succeeds. -/
lemma predictLoop_err_ok (a b c : PyModel) (m : MixDesign)
    (e : String) (y : PredictionRow)
    (h0 : (predictOne a b c m 0 "10 min").1 = .error e)
    (h1 : (predictOne a b c m 1 "30 min").1 = .ok y) :
    predictLoop a b c m =
      ([y], [predFailMsg "10 min" e],
       (predictOne a b c m 0 "10 min").2 ++ (predictOne a b c m 1 "30 min").2) := by
  simp [predictLoop, timePoints, h0, h1]

/-- The prediction loop when the first iteration succeeds and the
second raises. -/
lemma predictLoop_ok_err (a b c : PyModel) (m : MixDesign)
    (x : PredictionRow) (e : String)
    (h0 : (predictOne a b c m 0 "10 min").1 = .ok x)
    (h1 : (predictOne a b c m 1 "30 min").1 = .error e) :
    predictLoop a b c m =
      ([x], [predFailMsg "30 min" e],
       (predictOne a b c m 0 "10 min").2 ++ (predictOne a b c m 1 "30 min").2) := by
  simp [predictLoop, timePoints, h0, h1]

/-- The prediction loop when both iterations raise. -/
lemma predictLoop_err_err (a b c : PyModel) (m : MixDesign)
    (e0 e1 : String)
    (h0 : (predictOne a b c m 0 "10 min").1 = .error e0)
    (h1 : (predictOne a b c m 1 "30 min").1 = .error e1) :
    predictLoop a b c m =
      ([], [predFailMsg "10 min" e0, predFailMsg "30 min" e1],
       (predictOne a b c m 0 "10 min").2 ++ (predictOne a b c m 1 "30 min").2) := by
  simp [predictLoop, timePoints, h0, h1]

/-- The app on a failing binder sum: the halted record. -/
lemma runApp_halt (mS mD mP : Option PyModel) (m : MixDesign)
    (pressed : Bool) (h : binder_sum m ≠ 100) :
    runApp mS mD mP m pressed =
      { events := [.errorMsg (binderFailMsg m)], rows := [],
        invocations := [], offered := false, halted := true,
        finalMix := m } := by
  unfold runApp
  rw [if_pos h]

/-- The app with the binder check passed, all three models present and
truthy, and the button pressed. -/
lemma runApp_predict (a b c : PyModel) (m : MixDesign)
    (h : binder_sum m = 100) (hta : a.truthy = true)
    (htb : b.truthy = true) (htc : c.truthy = true) :
    runApp (some a) (some b) (some c) m true =
      { events := validationEvents m ++
          ((predictLoop a b c m).2.1.map OutputEvent.errorMsg ++
            (if (predictLoop a b c m).1 ≠ [] then
               [OutputEvent.table ((predictLoop a b c m).1.map rowTuple),
                OutputEvent.chart "Yield Stress vs Time"
                  ((predictLoop a b c m).1.map rowTuple),
                OutputEvent.chart "Plastic Viscosity vs Time"
                  ((predictLoop a b c m).1.map rowTuple)]
             else [])),
        rows := (predictLoop a b c m).1,
        invocations := (predictLoop a b c m).2.2,
        offered := true, halted := false, finalMix := m } := by
  unfold runApp
  rw [if_neg (by simp [h])]
  simp [hta, htb, htc]

/-- The app with the binder check passed, all three models present and
truthy, and the button not pressed. -/
lemma runApp_idle (a b c : PyModel) (m : MixDesign)
    (h : binder_sum m = 100) (hta : a.truthy = true)
    (htb : b.truthy = true) (htc : c.truthy = true) :
    runApp (some a) (some b) (some c) m false =
      { events := validationEvents m, rows := [], invocations := [],
        offered := true, halted := false, finalMix := m } := by
  unfold runApp
  rw [if_neg (by simp [h])]
  simp [hta, htb, htc]

/-- The app with the binder check passed but the model gate false: the
models-missing error record. -/
lemma runApp_noGate (mS mD mP : Option PyModel) (m : MixDesign)
    (pressed : Bool) (h : binder_sum m = 100)
    (hg : modelsGate mS mD mP = false) :
    runApp mS mD mP m pressed =
      { events := validationEvents m ++ [.errorMsg modelsLoadErrMsg],
        rows := [], invocations := [], offered := false, halted := false,
        finalMix := m } := by
  rcases mS with _ | a <;> rcases mD with _ | b <;> rcases mP with _ | c <;>
    unfold runApp <;> rw [if_neg (by simp [h])] <;>
    simp_all [modelsGate, pyTruthy]

/-- The app never reassigns the eight inputs: the final mix state is
the entered mix in every branch. -/
lemma runApp_finalMix (mS mD mP : Option PyModel) (m : MixDesign)
    (pressed : Bool) :
    (runApp mS mD mP m pressed).finalMix = m := by
  rcases mS with _ | a <;> rcases mD with _ | b <;> rcases mP with _ | c <;>
    unfold runApp <;> split_ifs <;> simp <;> split_ifs <;> rfl

/-- The validation step emits no error events (its outputs are success
or warning messages only). -/
lemma validationEvents_no_error (m : MixDesign) :
    (validationEvents m).countP isErrorEvent = 0 := by
  unfold validationEvents
  split_ifs <;> rfl

/-- Every invocation recorded by one loop iteration carries that
iteration's feature vector. -/
lemma predictOne_inv (a b c : PyModel) (m : MixDesign) (t : ℚ)
    (lbl : String) :
    ∀ x ∈ (predictOne a b c m t lbl).2, x.2 = input_values m t := by
  intro x hx
  simp only [predictOne] at hx
  rcases ha : a.predict (input_values m t) with e | s <;> rw [ha] at hx
  · simp at hx
    simp [hx]
  · rcases hbp : b.predict (input_values m t) with e' | d <;> rw [hbp] at hx
    · simp at hx
      rcases hx with h | h <;> simp [h]
    · rcases hcp : c.predict (input_values m t) with e'' | p <;> rw [hcp] at hx
      · simp at hx
        rcases hx with h | h | h <;> simp [h]
      · simp at hx
        rcases hx with h | h | h <;> simp [h]

/-- Every invocation recorded by the loop carries one of the two
feature vectors. -/
lemma predictLoop_inv (a b c : PyModel) (m : MixDesign) :
    ∀ x ∈ (predictLoop a b c m).2.2,
      x.2 = input_values m 0 ∨ x.2 = input_values m 1 := by
  intro x hx
  have h0 := predictOne_inv a b c m 0 "10 min"
  have h1 := predictOne_inv a b c m 1 "30 min"
  have hsplit : (predictLoop a b c m).2.2 =
      (predictOne a b c m 0 "10 min").2 ++ (predictOne a b c m 1 "30 min").2 := by
    rcases hq0 : (predictOne a b c m 0 "10 min").1 with e0 | r0 <;>
      rcases hq1 : (predictOne a b c m 1 "30 min").1 with e1 | r1
    · rw [predictLoop_err_err a b c m e0 e1 hq0 hq1]
    · rw [predictLoop_err_ok a b c m e0 r1 hq0 hq1]
    · rw [predictLoop_ok_err a b c m r0 e1 hq0 hq1]
    · rw [predictLoop_ok_ok a b c m r0 r1 hq0 hq1]
  rw [hsplit] at hx
  rcases List.mem_append.mp hx with hx' | hx'
  · exact Or.inl (h0 x hx')
  · exact Or.inr (h1 x hx')

/-- With the binder check passed, no branch of the app halts. -/
lemma runApp_not_halted (mS mD mP : Option PyModel) (m : MixDesign)
    (pressed : Bool) (hb : binder_sum m = 100) :
    (runApp mS mD mP m pressed).halted = false := by
  rcases mS with _ | a <;> rcases mD with _ | b <;> rcases mP with _ | c <;>
    unfold runApp <;> rw [if_neg (by simp [hb])] <;>
    simp <;> split_ifs <;> rfl

/-- The violation list is empty exactly when every field value lies
within its bounds. -/
lemma out_of_range_entries_nil_iff (m : MixDesign) :
    out_of_range_entries m = [] ↔
      ∀ x ∈ ranges m, x.2.1 ≤ x.2.2.2 ∧ x.2.2.2 ≤ x.2.2.1 := by
  simp [out_of_range_entries, List.filter_eq_nil_iff, inRangeB]

/-- Every feature vector that reaches a model in any branch of the app
is one of the two vectors built from the entered mix. -/
lemma runApp_inv (mS mD mP : Option PyModel) (m : MixDesign)
    (pressed : Bool) :
    ∀ nm iv, (nm, iv) ∈ (runApp mS mD mP m pressed).invocations →
      iv = input_values m 0 ∨ iv = input_values m 1 := by
  intro nm iv hmem
  by_cases hb : binder_sum m = 100
  · rcases mS with _ | a
    · rw [runApp_noGate none mD mP m pressed hb
        (by simp [modelsGate, pyTruthy])] at hmem
      simp at hmem
    · rcases mD with _ | b
      · rw [runApp_noGate (some a) none mP m pressed hb
          (by simp [modelsGate, pyTruthy])] at hmem
        simp at hmem
      · rcases mP with _ | c
        · rw [runApp_noGate (some a) (some b) none m pressed hb
            (by simp [modelsGate, pyTruthy])] at hmem
          simp at hmem
        · by_cases ht : (a.truthy && b.truthy && c.truthy) = true
          · simp only [Bool.and_eq_true] at ht
            obtain ⟨⟨hta, htb⟩, htc⟩ := ht
            cases pressed
            · rw [runApp_idle a b c m hb hta htb htc] at hmem
              simp at hmem
            · rw [runApp_predict a b c m hb hta htb htc] at hmem
              exact predictLoop_inv a b c m (nm, iv) hmem
          · rw [runApp_noGate (some a) (some b) (some c) m pressed hb
              (by simpa [modelsGate, pyTruthy] using Bool.eq_false_iff.mpr ht)] at hmem
            simp at hmem
  · rw [runApp_halt mS mD mP m pressed hb] at hmem
    simp at hmem

end Helpers

/-- C1: the binder-sum check passes exactly when the sum
opc + cc + lp + gyp equals 100 (no tolerance), and for any mix whose
sum differs from 100 the invocation halts at once: the only output is
the binder error message, no range-check output is produced, no model
is invoked, and no row is built. -/
theorem binderSum_exact_and_halts (mS mD mP : Option PyModel)
    (m : MixDesign) (pressed : Bool) :
    (checkBinderSum m = true ↔ binder_sum m = 100) ∧
    (binder_sum m ≠ 100 →
      runApp mS mD mP m pressed =
        { events := [.errorMsg (binderFailMsg m)], rows := [],
          invocations := [], offered := false, halted := true,
          finalMix := m }) := by
  exact ⟨by simp [checkBinderSum], runApp_halt mS mD mP m pressed⟩

/-- C1 witness: the sum 99.9 mix halts with exactly the binder error. -/
theorem binderSum_exact_and_halts_witness :
    (checkBinderSum mixBad = true ↔ binder_sum mixBad = 100) ∧
    runApp (some okModel) (some okModel) (some okModel) mixBad true =
      { events := [.errorMsg (binderFailMsg mixBad)], rows := [],
        invocations := [], offered := false, halted := true,
        finalMix := mixBad } :=
  ⟨(binderSum_exact_and_halts (some okModel) (some okModel) (some okModel)
      mixBad true).1,
   (binderSum_exact_and_halts (some okModel) (some okModel) (some okModel)
      mixBad true).2 (by norm_num [binder_sum, mixBad])⟩

/-- C2: for any validated mix on which the three models succeed, one
invocation of the loop yields exactly two rows in order, "10 min"
(indicator 0) first and "30 min" (indicator 1) second, each with the
three numeric predictions and no error; each feature vector is the
eight mix fields in the fixed order OPC, CC, LP, NC, GYP, S/B, W/B,
SP followed by the time indicator, so the two vectors agree except in
the last component, which is 0 then 1. -/
theorem predict_two_rows (a b c : PyModel) (m : MixDesign)
    (s0 d0 p0 s1 d1 p1 : ℚ)
    (hs0 : a.predict (input_values m 0) = .ok s0)
    (hd0 : b.predict (input_values m 0) = .ok d0)
    (hp0 : c.predict (input_values m 0) = .ok p0)
    (hs1 : a.predict (input_values m 1) = .ok s1)
    (hd1 : b.predict (input_values m 1) = .ok d1)
    (hp1 : c.predict (input_values m 1) = .ok p1) :
    predictLoop a b c m =
      ([⟨"10 min", s0, d0, p0⟩, ⟨"30 min", s1, d1, p1⟩], [],
       [("SYS", input_values m 0), ("DYS", input_values m 0),
        ("PV", input_values m 0), ("SYS", input_values m 1),
        ("DYS", input_values m 1), ("PV", input_values m 1)]) ∧
    input_values m 0 = [m.opc, m.cc, m.lp, m.nc, m.gyp, m.sb, m.wb, m.sp, 0] ∧
    input_values m 1 = [m.opc, m.cc, m.lp, m.nc, m.gyp, m.sb, m.wb, m.sp, 1] ∧
    (input_values m 0).dropLast = (input_values m 1).dropLast ∧
    (input_values m 0).getLast? = some 0 ∧
    (input_values m 1).getLast? = some 1 := by
  have h0 : predictOne a b c m 0 "10 min" =
      (.ok ⟨"10 min", s0, d0, p0⟩,
       [("SYS", input_values m 0), ("DYS", input_values m 0),
        ("PV", input_values m 0)]) := by
    simp [predictOne, hs0, hd0, hp0]
  have h1 : predictOne a b c m 1 "30 min" =
      (.ok ⟨"30 min", s1, d1, p1⟩,
       [("SYS", input_values m 1), ("DYS", input_values m 1),
        ("PV", input_values m 1)]) := by
    simp [predictOne, hs1, hd1, hp1]
  refine ⟨?_, rfl, rfl, rfl, rfl, rfl⟩
  have hloop := predictLoop_ok_ok a b c m ⟨"10 min", s0, d0, p0⟩
    ⟨"30 min", s1, d1, p1⟩ (by rw [h0]) (by rw [h1])
  rw [hloop, h0, h1]
  rfl

/-- C2 witness: the loop on the spec's concrete mix with an
always-succeeding model. -/
theorem predict_two_rows_witness :
    predictLoop okModel okModel okModel mixGood =
      ([⟨"10 min", (input_values mixGood 0).sum, (input_values mixGood 0).sum,
          (input_values mixGood 0).sum⟩,
        ⟨"30 min", (input_values mixGood 1).sum, (input_values mixGood 1).sum,
          (input_values mixGood 1).sum⟩], [],
       [("SYS", input_values mixGood 0), ("DYS", input_values mixGood 0),
        ("PV", input_values mixGood 0), ("SYS", input_values mixGood 1),
        ("DYS", input_values mixGood 1), ("PV", input_values mixGood 1)]) ∧
    input_values mixGood 0 =
      [mixGood.opc, mixGood.cc, mixGood.lp, mixGood.nc, mixGood.gyp,
       mixGood.sb, mixGood.wb, mixGood.sp, 0] ∧
    input_values mixGood 1 =
      [mixGood.opc, mixGood.cc, mixGood.lp, mixGood.nc, mixGood.gyp,
       mixGood.sb, mixGood.wb, mixGood.sp, 1] ∧
    (input_values mixGood 0).dropLast = (input_values mixGood 1).dropLast ∧
    (input_values mixGood 0).getLast? = some 0 ∧
    (input_values mixGood 1).getLast? = some 1 :=
  predict_two_rows okModel okModel okModel mixGood
    (input_values mixGood 0).sum (input_values mixGood 0).sum
    (input_values mixGood 0).sum (input_values mixGood 1).sum
    (input_values mixGood 1).sum (input_values mixGood 1).sum
    rfl rfl rfl rfl rfl rfl

/-- C4: when exactly one of the two time indicators fails, its row is
skipped and the other indicator is still evaluated: exactly one row
results and the single surfaced error message carries the failing
indicator's own time label ("10 min" when the indicator-0 iteration
raised, "30 min" when the indicator-1 iteration raised); with the gate
open and the button pressed, the single row is still rendered and
exactly one error event is shown. -/
theorem single_indicator_failure_isolated (a b c : PyModel) (m : MixDesign)
    (e : String) (r : PredictionRow)
    (h : ((predictOne a b c m 0 "10 min").1 = .error e ∧
          (predictOne a b c m 1 "30 min").1 = .ok r) ∨
         ((predictOne a b c m 0 "10 min").1 = .ok r ∧
          (predictOne a b c m 1 "30 min").1 = .error e)) :
    (predictLoop a b c m).1 = [r] ∧
    ((predictOne a b c m 0 "10 min").1 = .error e →
      (predictLoop a b c m).2.1 = [predFailMsg "10 min" e]) ∧
    ((predictOne a b c m 1 "30 min").1 = .error e →
      (predictLoop a b c m).2.1 = [predFailMsg "30 min" e]) ∧
    (∀ hta : a.truthy = true, ∀ htb : b.truthy = true,
     ∀ htc : c.truthy = true, ∀ hb : binder_sum m = 100,
      (runApp (some a) (some b) (some c) m true).rows = [r] ∧
      OutputEvent.table [rowTuple r] ∈
        (runApp (some a) (some b) (some c) m true).events ∧
      (runApp (some a) (some b) (some c) m true).events.countP
        isErrorEvent = 1) := by
  rcases h with ⟨h0, h1⟩ | ⟨h0, h1⟩
  · have hrows : (predictLoop a b c m).1 = [r] := by
      rw [predictLoop_err_ok a b c m e r h0 h1]
    have herr : (predictLoop a b c m).2.1 = [predFailMsg "10 min" e] := by
      rw [predictLoop_err_ok a b c m e r h0 h1]
    refine ⟨hrows, fun _ => herr, ?_, ?_⟩
    · intro hcon
      rw [h1] at hcon
      cases hcon
    · intro hta htb htc hb
      rw [runApp_predict a b c m hb hta htb htc]
      refine ⟨hrows, ?_, ?_⟩
      · simp [hrows]
      · simp [List.countP_append, validationEvents_no_error, hrows, herr,
          isErrorEvent, List.countP_cons]
  · have hrows : (predictLoop a b c m).1 = [r] := by
      rw [predictLoop_ok_err a b c m r e h0 h1]
    have herr : (predictLoop a b c m).2.1 = [predFailMsg "30 min" e] := by
      rw [predictLoop_ok_err a b c m r e h0 h1]
    refine ⟨hrows, ?_, fun _ => herr, ?_⟩
    · intro hcon
      rw [h0] at hcon
      cases hcon
    · intro hta htb htc hb
      rw [runApp_predict a b c m hb hta htb htc]
      refine ⟨hrows, ?_, ?_⟩
      · simp [hrows]
      · simp [List.countP_append, validationEvents_no_error, hrows, herr,
          isErrorEvent, List.countP_cons]

/-- C4 witness: a SYS model that raises only on the "10 min" vector,
alongside succeeding models: the one error message carries exactly the
"10 min" label. -/
theorem single_indicator_failure_isolated_witness :
    (predictLoop failAt0Model okModel okModel mixGood).1 =
      [⟨"30 min", 1, (input_values mixGood 1).sum,
        (input_values mixGood 1).sum⟩] ∧
    (predictLoop failAt0Model okModel okModel mixGood).2.1 =
      [predFailMsg "10 min" "boom"] :=
  ⟨(single_indicator_failure_isolated failAt0Model okModel okModel mixGood "boom"
      ⟨"30 min", 1, (input_values mixGood 1).sum, (input_values mixGood 1).sum⟩
      (Or.inl ⟨by simp [predictOne, failAt0Model, input_values],
        by simp [predictOne, failAt0Model, okModel, input_values]⟩)).1,
   (single_indicator_failure_isolated failAt0Model okModel okModel mixGood "boom"
      ⟨"30 min", 1, (input_values mixGood 1).sum, (input_values mixGood 1).sum⟩
      (Or.inl ⟨by simp [predictOne, failAt0Model, input_values],
        by simp [predictOne, failAt0Model, okModel, input_values]⟩)).2.1
     (by simp [predictOne, failAt0Model, input_values])⟩

/-- C8: when inference fails for both time indicators, the results
list is empty and neither the table nor either chart is rendered: the
prediction section's output is exactly the two per-indicator error
messages. -/
theorem both_fail_nothing_rendered (a b c : PyModel) (m : MixDesign)
    (e0 e1 : String)
    (h0 : (predictOne a b c m 0 "10 min").1 = .error e0)
    (h1 : (predictOne a b c m 1 "30 min").1 = .error e1)
    (hta : a.truthy = true) (htb : b.truthy = true) (htc : c.truthy = true)
    (hb : binder_sum m = 100) :
    (runApp (some a) (some b) (some c) m true).rows = [] ∧
    (runApp (some a) (some b) (some c) m true).events =
      validationEvents m ++
        [.errorMsg (predFailMsg "10 min" e0),
         .errorMsg (predFailMsg "30 min" e1)] ∧
    (∀ rows, OutputEvent.table rows ∉
      (runApp (some a) (some b) (some c) m true).events) ∧
    (∀ name rows, OutputEvent.chart name rows ∉
      (runApp (some a) (some b) (some c) m true).events) := by
  rw [runApp_predict a b c m hb hta htb htc,
    predictLoop_err_err a b c m e0 e1 h0 h1]
  refine ⟨rfl, by simp, ?_, ?_⟩
  · intro rows
    simp [validationEvents]
    split_ifs <;> simp
  · intro name rows
    simp [validationEvents]
    split_ifs <;> simp

/-- C8 witness: an always-raising model for all three slots on the
spec's concrete mix. -/
theorem both_fail_nothing_rendered_witness :
    (runApp (some failModel) (some failModel) (some failModel) mixGood
      true).rows = [] ∧
    (runApp (some failModel) (some failModel) (some failModel) mixGood
      true).events =
      validationEvents mixGood ++
        [.errorMsg (predFailMsg "10 min" "boom"),
         .errorMsg (predFailMsg "30 min" "boom")] :=
  ⟨(both_fail_nothing_rendered failModel failModel failModel mixGood
      "boom" "boom" rfl rfl rfl rfl rfl
      (by norm_num [binder_sum, mixGood])).1,
   (both_fail_nothing_rendered failModel failModel failModel mixGood
      "boom" "boom" rfl rfl rfl rfl rfl
      (by norm_num [binder_sum, mixGood])).2.1⟩

/-- C6: each of the three artifact loads is attempted independently: a
failure is caught (the embedding of the catch is total, nothing is
re-raised), the slot is recorded unavailable (`none`) with a
descriptive error event, and each remaining slot is exactly what its
own load result gives, unaffected by the others. -/
theorem load_model_isolated (rS rD rP : Except String PyModel)
    (path e : String) :
    load_model (.error e) path = (none, [.errorMsg (loadErrMsg path e)]) ∧
    (loadModels rS rD rP).1.1 = (load_model rS "GUI_SYS.joblib").1 ∧
    (loadModels rS rD rP).1.2.1 = (load_model rD "GUI_DYS.joblib").1 ∧
    (loadModels rS rD rP).1.2.2 = (load_model rP "GUI_PV.joblib").1 ∧
    (loadModels rS rD rP).2 =
      (load_model rS "GUI_SYS.joblib").2 ++
        (load_model rD "GUI_DYS.joblib").2 ++
        (load_model rP "GUI_PV.joblib").2 :=
  ⟨rfl, rfl, rfl, rfl, rfl⟩

/-- C3: if any one of the three models is unavailable (its slot is
`none` because loading failed), prediction is never offered for the
session: no rows are produced, no model is invoked, and — whenever the
pass is not already halted by the binder check — the models-load error
message is shown instead. -/
theorem missing_model_blocks_predict (mS mD mP : Option PyModel)
    (m : MixDesign) (pressed : Bool)
    (h : mS = none ∨ mD = none ∨ mP = none) :
    (runApp mS mD mP m pressed).offered = false ∧
    (runApp mS mD mP m pressed).rows = [] ∧
    (runApp mS mD mP m pressed).invocations = [] ∧
    (binder_sum m = 100 →
      OutputEvent.errorMsg modelsLoadErrMsg ∈
        (runApp mS mD mP m pressed).events) := by
  by_cases hb : binder_sum m = 100
  · have hg : modelsGate mS mD mP = false := by
      rcases h with h | h | h <;> subst h <;> simp [modelsGate, pyTruthy]
    rw [runApp_noGate mS mD mP m pressed hb hg]
    simp
  · rw [runApp_halt mS mD mP m pressed hb]
    simp [hb]

/-- C3 witness: a missing SYS model with the other two loaded. -/
theorem missing_model_blocks_predict_witness :
    (runApp none (some okModel) (some okModel) mixGood true).offered
        = false ∧
    OutputEvent.errorMsg modelsLoadErrMsg ∈
      (runApp none (some okModel) (some okModel) mixGood true).events :=
  ⟨(missing_model_blocks_predict none (some okModel) (some okModel)
      mixGood true (Or.inl rfl)).1,
   (missing_model_blocks_predict none (some okModel) (some okModel)
      mixGood true (Or.inl rfl)).2.2.2 (by norm_num [binder_sum, mixGood])⟩

/-- C5: the range check treats the bounds as inclusive: a field value
equal to its lower or upper bound yields no violation entry for that
field, a value strictly outside yields exactly one; the violation list
is empty exactly when every field is within bounds; and the check never
blocks: with the binder check passed, no branch of the app halts. -/
theorem checkRanges_inclusive (m : MixDesign) (nm : String)
    (low high val : ℚ) (hmem : (nm, low, high, val) ∈ ranges m) :
    ((val = low ∨ val = high) →
      (out_of_range_entries m).countP (fun x => x.1 == nm) = 0) ∧
    ((val < low ∨ high < val) →
      (out_of_range_entries m).countP (fun x => x.1 == nm) = 1) ∧
    (out_of_range_entries m = [] ↔
      ∀ x ∈ ranges m, x.2.1 ≤ x.2.2.2 ∧ x.2.2.2 ≤ x.2.2.1) ∧
    (∀ mS mD mP pressed, binder_sum m = 100 →
      (runApp mS mD mP m pressed).halted = false) := by
  refine ⟨?_, ?_, out_of_range_entries_nil_iff m,
    fun mS mD mP pressed hb => runApp_not_halted mS mD mP m pressed hb⟩
  · simp only [ranges, List.mem_cons, List.not_mem_nil, or_false,
      Prod.mk.injEq] at hmem
    rcases hmem with ⟨rfl, rfl, rfl, rfl⟩ | ⟨rfl, rfl, rfl, rfl⟩ |
      ⟨rfl, rfl, rfl, rfl⟩ | ⟨rfl, rfl, rfl, rfl⟩ | ⟨rfl, rfl, rfl, rfl⟩ |
      ⟨rfl, rfl, rfl, rfl⟩ | ⟨rfl, rfl, rfl, rfl⟩ | ⟨rfl, rfl, rfl, rfl⟩ <;>
    rintro (h | h) <;>
      simp [out_of_range_entries, List.countP_filter, ranges,
        List.countP_cons, List.countP_nil, inRangeB, h] <;>
      norm_num
  · simp only [ranges, List.mem_cons, List.not_mem_nil, or_false,
      Prod.mk.injEq] at hmem
    rcases hmem with ⟨rfl, rfl, rfl, rfl⟩ | ⟨rfl, rfl, rfl, rfl⟩ |
      ⟨rfl, rfl, rfl, rfl⟩ | ⟨rfl, rfl, rfl, rfl⟩ | ⟨rfl, rfl, rfl, rfl⟩ |
      ⟨rfl, rfl, rfl, rfl⟩ | ⟨rfl, rfl, rfl, rfl⟩ | ⟨rfl, rfl, rfl, rfl⟩ <;>
    rintro (h | h) <;>
      simp [out_of_range_entries, List.countP_filter, ranges,
        List.countP_cons, List.countP_nil, inRangeB] <;>
      (intro hc; linarith)

/-- C5 witness: the out-of-range nanoclay dosage of the fixture mix
yields exactly one violation entry for the NC field. -/
theorem checkRanges_inclusive_witness :
    (out_of_range_entries mixOutOfRange).countP
      (fun x => x.1 == "NC (%)") = 1 :=
  (checkRanges_inclusive mixOutOfRange "NC (%)" 0 5 mixOutOfRange.nc
      (by simp [ranges])).2.1
    (Or.inr (by norm_num [mixOutOfRange]))

/-- C7: prediction is deterministic and mutation-free: two mixes with
identical eight field values yield identical feature vectors and an
identical loop outcome (rows, errors and invocations), and every
branch of the app leaves the mix state exactly as entered. -/
theorem predict_deterministic_pure (a b c : PyModel) (m1 m2 : MixDesign)
    (h : m1.opc = m2.opc ∧ m1.cc = m2.cc ∧ m1.lp = m2.lp ∧
         m1.nc = m2.nc ∧ m1.gyp = m2.gyp ∧ m1.sb = m2.sb ∧
         m1.wb = m2.wb ∧ m1.sp = m2.sp) :
    (∀ t, input_values m1 t = input_values m2 t) ∧
    predictLoop a b c m1 = predictLoop a b c m2 ∧
    (∀ mS mD mP pressed, (runApp mS mD mP m1 pressed).finalMix = m1) := by
  obtain ⟨h1, h2, h3, h4, h5, h6, h7, h8⟩ := h
  have hm : m1 = m2 := by
    cases m1
    cases m2
    simp_all
  subst hm
  exact ⟨fun t => rfl, rfl,
    fun mS mD mP pressed => runApp_finalMix mS mD mP m1 pressed⟩

/-- C7 witness: the determinism and frame conclusions at the fixture
mix. -/
theorem predict_deterministic_pure_witness :
    predictLoop okModel okModel okModel mixGood =
      predictLoop okModel okModel okModel mixGood ∧
    (runApp (some okModel) (some okModel) (some okModel) mixGood
      true).finalMix = mixGood :=
  ⟨(predict_deterministic_pure okModel okModel okModel mixGood mixGood
      ⟨rfl, rfl, rfl, rfl, rfl, rfl, rfl, rfl⟩).2.1,
   (predict_deterministic_pure okModel okModel okModel mixGood mixGood
      ⟨rfl, rfl, rfl, rfl, rfl, rfl, rfl, rfl⟩).2.2 (some okModel)
      (some okModel) (some okModel) true⟩

/-- C9: the prediction gate tests the truthiness of the three load
results: once validation passes, prediction is offered exactly when all
three are truthy, and a deserialized-but-falsy model object disables
prediction exactly as a missing (`None`) model does, in any slot. -/
theorem gate_is_truthiness (mS mD mP : Option PyModel) (m : MixDesign)
    (pressed : Bool) (hb : binder_sum m = 100) :
    ((runApp mS mD mP m pressed).offered = true ↔
      modelsGate mS mD mP = true) ∧
    (∀ f, runApp (some ⟨false, f⟩) mD mP m pressed =
      runApp none mD mP m pressed) ∧
    (∀ f, runApp mS (some ⟨false, f⟩) mP m pressed =
      runApp mS none mP m pressed) ∧
    (∀ f, runApp mS mD (some ⟨false, f⟩) m pressed =
      runApp mS mD none m pressed) := by
  refine ⟨?_, ?_, ?_, ?_⟩
  · by_cases hg : modelsGate mS mD mP = true
    · rcases mS with _ | a
      · simp [modelsGate, pyTruthy] at hg
      · rcases mD with _ | b
        · simp [modelsGate, pyTruthy] at hg
        · rcases mP with _ | c
          · simp [modelsGate, pyTruthy] at hg
          · simp only [modelsGate, pyTruthy, Bool.and_eq_true] at hg
            obtain ⟨⟨hta, htb⟩, htc⟩ := hg
            cases pressed
            · rw [runApp_idle a b c m hb hta htb htc]
              simp [modelsGate, pyTruthy, hta, htb, htc]
            · rw [runApp_predict a b c m hb hta htb htc]
              simp [modelsGate, pyTruthy, hta, htb, htc]
    · have hg' : modelsGate mS mD mP = false := Bool.eq_false_iff.mpr hg
      rw [runApp_noGate mS mD mP m pressed hb hg']
      simp [hg']
  · intro f
    rw [runApp_noGate (some ⟨false, f⟩) mD mP m pressed hb
        (by simp [modelsGate, pyTruthy]),
      runApp_noGate none mD mP m pressed hb
        (by simp [modelsGate, pyTruthy])]
  · intro f
    rw [runApp_noGate mS (some ⟨false, f⟩) mP m pressed hb
        (by simp [modelsGate, pyTruthy]),
      runApp_noGate mS none mP m pressed hb
        (by simp [modelsGate, pyTruthy])]
  · intro f
    rw [runApp_noGate mS mD (some ⟨false, f⟩) m pressed hb
        (by simp [modelsGate, pyTruthy]),
      runApp_noGate mS mD none m pressed hb
        (by simp [modelsGate, pyTruthy])]

/-- C9 witness: a falsy deserialized object in the SYS slot behaves
exactly as a missing model. -/
theorem gate_is_truthiness_witness :
    ((runApp (some falsyModel) (some okModel) (some okModel) mixGood
        true).offered = true ↔
      modelsGate (some falsyModel) (some okModel) (some okModel) = true) ∧
    runApp (some falsyModel) (some okModel) (some okModel) mixGood true =
      runApp none (some okModel) (some okModel) mixGood true :=
  ⟨(gate_is_truthiness (some falsyModel) (some okModel) (some okModel)
      mixGood true (by norm_num [binder_sum, mixGood])).1,
   (gate_is_truthiness (some falsyModel) (some okModel) (some okModel)
      mixGood true (by norm_num [binder_sum, mixGood])).2.1
     falsyModel.predict⟩

/-- C10: validation never alters the inputs: every branch of the app
leaves the mix state exactly as entered, each feature vector is
exactly the eight entered values in fixed order plus the time
indicator, and every vector that reaches a model is one of those two —
an out-of-range value is forwarded as entered, never clamped. -/
theorem inputs_forwarded_unchanged (mS mD mP : Option PyModel)
    (m : MixDesign) (pressed : Bool) :
    (runApp mS mD mP m pressed).finalMix = m ∧
    (∀ t, input_values m t =
      [m.opc, m.cc, m.lp, m.nc, m.gyp, m.sb, m.wb, m.sp, t]) ∧
    (∀ nm iv, (nm, iv) ∈ (runApp mS mD mP m pressed).invocations →
      iv = input_values m 0 ∨ iv = input_values m 1) :=
  ⟨runApp_finalMix mS mD mP m pressed, fun t => rfl,
   runApp_inv mS mD mP m pressed⟩

/-- C10 witness: with the nanoclay dosage out of range, the vector that
reaches the SYS model still carries the entered values unchanged. -/
theorem inputs_forwarded_unchanged_witness :
    (runApp (some okModel) (some okModel) (some okModel) mixOutOfRange
      true).finalMix = mixOutOfRange ∧
    (input_values mixOutOfRange 0 = input_values mixOutOfRange 0 ∨
     input_values mixOutOfRange 0 = input_values mixOutOfRange 1) :=
  ⟨(inputs_forwarded_unchanged (some okModel) (some okModel)
      (some okModel) mixOutOfRange true).1,
   (inputs_forwarded_unchanged (some okModel) (some okModel)
      (some okModel) mixOutOfRange true).2.2 "SYS"
     (input_values mixOutOfRange 0)
     (by rw [runApp_predict okModel okModel okModel mixOutOfRange
            (by norm_num [binder_sum, mixOutOfRange]) rfl rfl rfl]
         simp [predictLoop, timePoints, predictOne, okModel])⟩

end Rheology
